import Mathlib

/-!
Verification of the Session & Configuration State Engine of the
banana-slides frontend (the zustand store `useAuthStore` in
src/frontend/src/store/useAuthStore.ts, given as src/unnamed/part_002,
together with the bootstrap effect in src/frontend/src/App.tsx and the
Settings page in src/unnamed/part_001).

The store is embedded shallowly: each store action becomes a pure Lean
function from the current store state and the outcomes of the network
calls it performs to the new store state, the value it returns (or the
error it throws), and the list of network requests it issued.  Network
outcomes are explicit parameters because the remote authority is an
external collaborator.  JavaScript falsiness of nullable strings
(`!accessToken`, `!refreshToken`) is modelled exactly: `null` and the
empty string are both falsy.
-/

namespace BananaSlides

/-- The `User` record of src/unnamed/part_002 (api/auth.ts). -/
structure User where
  id : String
  username : String
  email : Option String
  avatar_url : Option String
  role : String
  oauth_provider : Option String
  created_at : String
deriving DecidableEq, Repr

/-- The `UserSettings` override record of src/unnamed/part_002 (api/auth.ts):
plain fields round-trip as value or null, secrets only as is-set flags. -/
structure UserSettings where
  id : String
  user_id : String
  google_api_base : Option String
  mineru_api_base : Option String
  image_caption_model : Option String
  max_description_workers : Option Int
  max_image_workers : Option Int
  has_google_api_key : Bool
  has_mineru_token : Bool
  created_at : String
  updated_at : String
deriving DecidableEq, Repr

/-- Provenance of an effective-config entry (`source: 'user' | 'system'`). -/
inductive ConfigSource where
  | user
  | system
deriving DecidableEq, Repr

/-- A secret entry of `EffectiveConfig`: `{ is_set: boolean; source }`. -/
structure SecretEntry where
  is_set : Bool
  source : ConfigSource
deriving DecidableEq, Repr

/-- A plain string entry of `EffectiveConfig`: `{ value: string; source }`. -/
structure StrEntry where
  value : String
  source : ConfigSource
deriving DecidableEq, Repr

/-- A numeric entry of `EffectiveConfig`: `{ value: number; source }`. -/
structure IntEntry where
  value : Int
  source : ConfigSource
deriving DecidableEq, Repr

/-- The `EffectiveConfig` record of src/unnamed/part_002 (api/auth.ts). -/
structure EffectiveConfig where
  google_api_key : SecretEntry
  google_api_base : StrEntry
  mineru_token : SecretEntry
  mineru_api_base : StrEntry
  image_caption_model : StrEntry
  max_description_workers : IntEntry
  max_image_workers : IntEntry
deriving DecidableEq, Repr

/-- The state fields of the `AuthState` zustand store
(src/unnamed/part_002 lines 502-513 and 536-544). -/
structure AuthState where
  user : Option User
  accessToken : Option String
  refreshToken : Option String
  isAuthenticated : Bool
  isLoading : Bool
  error : Option String
  settings : Option UserSettings
  effectiveConfig : Option EffectiveConfig
deriving DecidableEq, Repr

/-- The initial store state (src/unnamed/part_002 lines 536-544). -/
def initialState : AuthState :=
  { user := none
    accessToken := none
    refreshToken := none
    isAuthenticated := false
    isLoading := false
    error := none
    settings := none
    effectiveConfig := none }

/-- Response of the login / register endpoints: user profile plus token pair. -/
structure LoginResponse where
  user : User
  access_token : String
  refresh_token : String
  token_type : String
deriving DecidableEq, Repr

/-- Response of the three settings endpoints: override record plus the
server-resolved effective config. -/
structure SettingsResponse where
  settings : UserSettings
  effective_config : EffectiveConfig
deriving DecidableEq, Repr

/-- The partial update payload of `updateSettings`
(src/unnamed/part_002, `UpdateSettingsRequest` in api/auth.ts). -/
structure UpdateSettingsRequest where
  google_api_key : Option String
  google_api_base : Option String
  mineru_token : Option String
  mineru_api_base : Option String
  image_caption_model : Option String
  max_description_workers : Option Int
  max_image_workers : Option Int
deriving DecidableEq, Repr

/-- Outcome of one `authApi.getCurrentUser()` call, distinguishing HTTP 401
(the only status `fetchCurrentUser` inspects) from every other failure. -/
inductive GetUserApi where
  | ok (u : User)
  | http401
  | errOther
deriving DecidableEq, Repr

/-- Network requests the store issues, in order.  `sessionCleared` marks the
execution of the six-field clearing `set` (the inlined `clearSession()` of the
spec), emitted exactly at the two source sites that perform it. -/
inductive Ev where
  | reqLogin (email : String)
  | reqRegister (username email : String)
  | reqLogout
  | reqRefresh (refreshTok : String)
  | reqGetUser (bearer : Option String)
  | reqGetSettings
  | reqUpdateSettings (data : UpdateSettingsRequest)
  | reqResetSetting (key : String)
  | sessionCleared
deriving DecidableEq, Repr

/-- The six-field clearing `set` executed by `logout` (lines 595-602) and by
the catch branch of `refreshAccessToken` (lines 616-623); both occurrences
write exactly these fields and leave `isLoading` and `error` untouched. -/
def clearSessionFields (s : AuthState) : AuthState :=
  { s with user := none
           accessToken := none
           refreshToken := none
           isAuthenticated := false
           settings := none
           effectiveConfig := none }

/-- Modelled from the spec: the HTTP transport (`api/client.ts`, not under
src/) attaches the store's current access token as the bearer credential of
authenticated requests (spec 4.1 `currentAccessToken()` and the endpoint
table of spec 6). -/
def attachedToken (s : AuthState) : Option String :=
  s.accessToken

/-- Embeds `refreshAccessToken` (src/unnamed/part_002 lines 606-626).
`api` is the outcome of `authApi.refresh`: `some newTok` on success, `none`
on any failure (the catch does not inspect the error).  `!refreshToken`
short-circuits for null and for the empty string. -/
def refreshAccessToken (s : AuthState) (api : Option String) :
    AuthState × Bool × List Ev :=
  match s.refreshToken with
  | none => (s, false, [])
  | some rt =>
    if rt = "" then (s, false, [])
    else
      match api with
      | some newTok =>
        ({ s with accessToken := some newTok }, true, [Ev.reqRefresh rt])
      | none =>
        (clearSessionFields s, false, [Ev.reqRefresh rt, Ev.sessionCleared])

/-- Embeds `fetchCurrentUser` (src/unnamed/part_002 lines 629-656).
`api1` is the outcome of the first `authApi.getCurrentUser()`, `apiR` of the
refresh exchange (if reached), `api2` of the retried `getCurrentUser` (if
reached).  The function never throws: every failure path only resets
`isLoading`. -/
def fetchCurrentUser (s : AuthState) (api1 : GetUserApi) (apiR : Option String)
    (api2 : GetUserApi) : AuthState × List Ev :=
  match s.accessToken with
  | none => (s, [])
  | some tok =>
    if tok = "" then (s, [])
    else
      let s1 : AuthState := { s with isLoading := true }
      let e1 := Ev.reqGetUser (attachedToken s1)
      match api1 with
      | .ok u =>
        ({ s1 with user := some u, isAuthenticated := true, isLoading := false },
         [e1])
      | .http401 =>
        match refreshAccessToken s1 apiR with
        | (s2, true, tr) =>
          let e2 := Ev.reqGetUser (attachedToken s2)
          match api2 with
          | .ok u =>
            ({ s2 with user := some u, isAuthenticated := true, isLoading := false },
             e1 :: tr ++ [e2])
          | _ => ({ s2 with isLoading := false }, e1 :: tr ++ [e2])
        | (s2, false, tr) => ({ s2 with isLoading := false }, e1 :: tr)
      | .errOther => ({ s1 with isLoading := false }, [e1])

/-- Embeds `logout` (src/unnamed/part_002 lines 589-603).  The remote call is
awaited inside try/catch and its failure ignored; the clearing `set` runs
unconditionally, so the result does not depend on `remoteOk`. -/
def logout (s : AuthState) (_remoteOk : Bool) : AuthState × List Ev :=
  (clearSessionFields s, [Ev.reqLogout, Ev.sessionCleared])

/-- Embeds `fetchSettings` (src/unnamed/part_002 lines 666-676).  On failure
the source only writes `console.error`: no state field changes and nothing is
thrown (the promise resolves). -/
def fetchSettings (s : AuthState) (api : Except (Option String) SettingsResponse) :
    AuthState × List Ev :=
  match api with
  | .ok r =>
    ({ s with settings := some r.settings,
              effectiveConfig := some r.effective_config },
     [Ev.reqGetSettings])
  | .error _ => (s, [Ev.reqGetSettings])

/-- Embeds `updateSettings` (src/unnamed/part_002 lines 679-691).  On failure
the server message (or the fallback text) is stored in `error` and thrown. -/
def updateSettings (s : AuthState) (data : UpdateSettingsRequest)
    (api : Except (Option String) SettingsResponse) :
    Except String Unit × AuthState × List Ev :=
  match api with
  | .ok r =>
    (.ok (),
     { s with settings := some r.settings,
              effectiveConfig := some r.effective_config },
     [Ev.reqUpdateSettings data])
  | .error m =>
    let msg := m.getD "Failed to update settings"
    (.error msg, { s with error := some msg }, [Ev.reqUpdateSettings data])

/-- Embeds `resetSetting` (src/unnamed/part_002 lines 694-706). -/
def resetSetting (s : AuthState) (key : String)
    (api : Except (Option String) SettingsResponse) :
    Except String Unit × AuthState × List Ev :=
  match api with
  | .ok r =>
    (.ok (),
     { s with settings := some r.settings,
              effectiveConfig := some r.effective_config },
     [Ev.reqResetSetting key])
  | .error m =>
    let msg := m.getD "Failed to reset setting"
    (.error msg, { s with error := some msg }, [Ev.reqResetSetting key])

/-- Embeds `login` (src/unnamed/part_002 lines 547-565).  On success the
session fields are stored and `fetchSettings` is fired (its outcome `apiS`);
on failure the message is stored in `error` and thrown. -/
def login (s : AuthState) (email : String)
    (api : Except (Option String) LoginResponse)
    (apiS : Except (Option String) SettingsResponse) :
    Except String Unit × AuthState × List Ev :=
  let s1 : AuthState := { s with isLoading := true, error := none }
  match api with
  | .ok r =>
    let s2 : AuthState :=
      { s1 with user := some r.user
                accessToken := some r.access_token
                refreshToken := some r.refresh_token
                isAuthenticated := true
                isLoading := false }
    let (s3, tr) := fetchSettings s2 apiS
    (.ok (), s3, Ev.reqLogin email :: tr)
  | .error m =>
    let msg := m.getD "Login failed"
    (.error msg, { s1 with error := some msg, isLoading := false },
     [Ev.reqLogin email])

/-- Embeds `register` (src/unnamed/part_002 lines 568-586); identical shape
to `login` with the registration endpoint and fallback message. -/
def register (s : AuthState) (username email : String)
    (api : Except (Option String) LoginResponse)
    (apiS : Except (Option String) SettingsResponse) :
    Except String Unit × AuthState × List Ev :=
  let s1 : AuthState := { s with isLoading := true, error := none }
  match api with
  | .ok r =>
    let s2 : AuthState :=
      { s1 with user := some r.user
                accessToken := some r.access_token
                refreshToken := some r.refresh_token
                isAuthenticated := true
                isLoading := false }
    let (s3, tr) := fetchSettings s2 apiS
    (.ok (), s3, Ev.reqRegister username email :: tr)
  | .error m =>
    let msg := m.getD "Registration failed"
    (.error msg, { s1 with error := some msg, isLoading := false },
     [Ev.reqRegister username email])

/-- Embeds `setTokensFromOAuth` (src/unnamed/part_002 lines 659-663): store
both tokens with `isAuthenticated = true`, then `fetchCurrentUser`, then
`fetchSettings`. -/
def setTokensFromOAuth (s : AuthState) (a r : String) (api1 : GetUserApi)
    (apiR : Option String) (api2 : GetUserApi)
    (apiS : Except (Option String) SettingsResponse) : AuthState × List Ev :=
  let s1 : AuthState :=
    { s with accessToken := some a, refreshToken := some r, isAuthenticated := true }
  let (s2, tr1) := fetchCurrentUser s1 api1 apiR api2
  let (s3, tr2) := fetchSettings s2 apiS
  (s3, tr1 ++ tr2)

/-- Embeds the bootstrap effect of `App` (src/frontend/src/App.tsx lines
83-87): on mount, `if (isAuthenticated) fetchCurrentUser();` and nothing
else — in particular no settings fetch. -/
def appBootstrap (s : AuthState) (api1 : GetUserApi) (apiR : Option String)
    (api2 : GetUserApi) : AuthState × List Ev :=
  if s.isAuthenticated then fetchCurrentUser s api1 apiR api2 else (s, [])

/-- Embeds the settings-loading effect of the `Settings` page
(src/unnamed/part_001 lines 198-202): on mount,
`if (isAuthenticated) fetchSettings();`. -/
def settingsPageLoad (s : AuthState)
    (api : Except (Option String) SettingsResponse) : AuthState × List Ev :=
  if s.isAuthenticated then fetchSettings s api else (s, [])

/-!
Suspension-point decomposition of `fetchCurrentUser`.  The execution model
is the single-threaded UI event loop: the only suspension points are the
awaited network calls, so a logical call is a task that runs synchronously
between awaits and other tasks may be scheduled while it waits.  The three
awaits of `fetchCurrentUser` (first `getCurrentUser`, the refresh exchange
inside `refreshAccessToken`, the retried `getCurrentUser`) cut it into the
four segments below; `runPhased` re-sequences them and is proved equal to
the atomic `fetchCurrentUser`, so the decomposition adds nothing beyond the
choice of interleaving. -/

/-- Where a `fetchCurrentUser` task is suspended. -/
inductive TaskPC where
  | awaitGetUser1
  | awaitRefresh
  | awaitGetUser2
  | taskDone
deriving DecidableEq, Repr

/-- Segment of `fetchCurrentUser` up to the first await: the falsy-token
guard, `set({ isLoading: true })`, and issuing `getCurrentUser`. -/
def startFetch (s : AuthState) : AuthState × TaskPC × List Ev :=
  match s.accessToken with
  | none => (s, .taskDone, [])
  | some tok =>
    if tok = "" then (s, .taskDone, [])
    else
      ({ s with isLoading := true }, .awaitGetUser1,
       [Ev.reqGetUser s.accessToken])

/-- Segment run when the first `getCurrentUser` resolves: the success branch,
or the 401 branch up to `refreshAccessToken` issuing the refresh exchange
(no state is written before that await), or the other-error branch. -/
def resumeGetUser1 (s : AuthState) (api1 : GetUserApi) :
    AuthState × TaskPC × List Ev :=
  match api1 with
  | .ok u =>
    ({ s with user := some u, isAuthenticated := true, isLoading := false },
     .taskDone, [])
  | .http401 =>
    match s.refreshToken with
    | none => ({ s with isLoading := false }, .taskDone, [])
    | some rt =>
      if rt = "" then ({ s with isLoading := false }, .taskDone, [])
      else (s, .awaitRefresh, [Ev.reqRefresh rt])
  | .errOther => ({ s with isLoading := false }, .taskDone, [])

/-- Segment run when the refresh exchange resolves: store the new access
token and issue the retry, or clear the session and finish. -/
def resumeRefresh (s : AuthState) (apiR : Option String) :
    AuthState × TaskPC × List Ev :=
  match apiR with
  | some newTok =>
    let s2 : AuthState := { s with accessToken := some newTok }
    (s2, .awaitGetUser2, [Ev.reqGetUser s2.accessToken])
  | none =>
    ({ clearSessionFields s with isLoading := false }, .taskDone,
     [Ev.sessionCleared])

/-- Segment run when the retried `getCurrentUser` resolves. -/
def resumeGetUser2 (s : AuthState) (api2 : GetUserApi) :
    AuthState × TaskPC × List Ev :=
  match api2 with
  | .ok u =>
    ({ s with user := some u, isAuthenticated := true, isLoading := false },
     .taskDone, [])
  | _ => ({ s with isLoading := false }, .taskDone, [])

/-- One task's segments run back to back with no interleaving. -/
def runPhased (s : AuthState) (api1 : GetUserApi) (apiR : Option String)
    (api2 : GetUserApi) : AuthState × List Ev :=
  let (s1, pc1, tr1) := startFetch s
  match pc1 with
  | .taskDone => (s1, tr1)
  | _ =>
    let (s2, pc2, tr2) := resumeGetUser1 s1 api1
    match pc2 with
    | .taskDone => (s2, tr1 ++ tr2)
    | _ =>
      let (s3, pc3, tr3) := resumeRefresh s2 apiR
      match pc3 with
      | .taskDone => (s3, tr1 ++ tr2 ++ tr3)
      | _ =>
        let (s4, _, tr4) := resumeGetUser2 s3 api2
        (s4, tr1 ++ tr2 ++ tr3 ++ tr4)

/-- `n` concurrent `fetchCurrentUser` tasks started one after another,
each running to its first await. -/
def startN : Nat → AuthState → AuthState × List Ev
  | 0, s => (s, [])
  | n + 1, s =>
    let (s1, _, tr) := startFetch s
    let (s2, tr2) := startN n s1
    (s2, tr ++ tr2)

/-- A 401 delivered in turn to each of `n` tasks suspended at their first
`getCurrentUser`, each resuming up to its next await. -/
def deliver401N : Nat → AuthState → AuthState × List Ev
  | 0, s => (s, [])
  | n + 1, s =>
    let (s1, _, tr) := resumeGetUser1 s .http401
    let (s2, tr2) := deliver401N n s1
    (s2, tr ++ tr2)

/-- Number of refresh-exchange requests in a trace. -/
def refreshRequestCount (tr : List Ev) : Nat :=
  tr.countP fun e =>
    match e with
    | Ev.reqRefresh _ => true
    | _ => false

/-- Number of `getCurrentUser` requests in a trace. -/
def getUserRequestCount (tr : List Ev) : Nat :=
  tr.countP fun e =>
    match e with
    | Ev.reqGetUser _ => true
    | _ => false

/-! Concrete sample data used by witnesses and counterexamples. -/

/-- A sample user profile. -/
def demoUser : User :=
  { id := "u1"
    username := "alice"
    email := some "alice@example.com"
    avatar_url := none
    role := "user"
    oauth_provider := none
    created_at := "2024-01-01" }

/-- A sample stored settings override. -/
def demoSettings : UserSettings :=
  { id := "s1"
    user_id := "u1"
    google_api_base := some "https://api.example.com"
    mineru_api_base := none
    image_caption_model := none
    max_description_workers := some 5
    max_image_workers := none
    has_google_api_key := true
    has_mineru_token := false
    created_at := "2024-01-01"
    updated_at := "2024-01-02" }

/-- A sample effective config. -/
def demoConfig : EffectiveConfig :=
  { google_api_key := { is_set := true, source := .user }
    google_api_base := { value := "https://api.example.com", source := .user }
    mineru_token := { is_set := false, source := .system }
    mineru_api_base := { value := "https://mineru.example.com", source := .system }
    image_caption_model := { value := "gemini-2.5-flash", source := .system }
    max_description_workers := { value := 5, source := .user }
    max_image_workers := { value := 8, source := .system } }

/-- A fully authenticated store state, as after a successful login and
settings fetch. -/
def demoAuthedState : AuthState :=
  { user := some demoUser
    accessToken := some "tokA"
    refreshToken := some "tokR"
    isAuthenticated := true
    isLoading := false
    error := none
    settings := some demoSettings
    effectiveConfig := some demoConfig }

/-- The driving scenario of the de-duplication claim: two concurrent
authenticated calls are started, then each receives a 401 while the
refresh triggered by the first is still pending. -/
def concurrentScenario : AuthState × List Ev :=
  let (s1, tr1) := startN 2 demoAuthedState
  let (s2, tr2) := deliver401N 2 s1
  (s2, tr1 ++ tr2)

/-- A persisted state holding an access token and a user but no refresh
token, with the persisted `isAuthenticated` flag still true. -/
def noRefreshState : AuthState :=
  { demoAuthedState with refreshToken := none }

/-- The operations of the claimed session invariant: the source's
setSession-like actions (successful `login`, `register`,
`setTokensFromOAuth`) and clearSession-like actions (`logout`, the failing
branch of `refreshAccessToken`), each carrying the outcomes of the network
calls it performs. -/
inductive SessionOp where
  | loginOk (email : String) (r : LoginResponse)
      (apiS : Except (Option String) SettingsResponse)
  | registerOk (username email : String) (r : LoginResponse)
      (apiS : Except (Option String) SettingsResponse)
  | oauthCallback (a rt : String) (api1 : GetUserApi) (apiR : Option String)
      (api2 : GetUserApi) (apiS : Except (Option String) SettingsResponse)
  | logoutOp (remoteOk : Bool)
  | refreshFailure

/-- The store state after one session operation, via the embedded store
actions. -/
def applySessionOp (s : AuthState) : SessionOp → AuthState
  | .loginOk e r apiS => (login s e (.ok r) apiS).2.1
  | .registerOk u e r apiS => (register s u e (.ok r) apiS).2.1
  | .oauthCallback a rt api1 apiR api2 apiS =>
      (setTokensFromOAuth s a rt api1 apiR api2 apiS).1
  | .logoutOp ok => (logout s ok).1
  | .refreshFailure => (refreshAccessToken s none).1

/-- `isAuthenticated` reflects exactly "both tokens present". -/
def sessionInvariant (s : AuthState) : Prop :=
  s.isAuthenticated = (s.accessToken.isSome && s.refreshToken.isSome)

/-- Number of occurrences of the session-clearing `set` in a trace. -/
def sessionClearCount (tr : List Ev) : Nat :=
  tr.countP fun e =>
    match e with
    | Ev.sessionCleared => true
    | _ => false

/-- Number of settings-read requests in a trace. -/
def getSettingsRequestCount (tr : List Ev) : Nat :=
  tr.countP fun e =>
    match e with
    | Ev.reqGetSettings => true
    | _ => false

/-! ## Supporting lemmas -/

/-- Sanity of the suspension-point decomposition: running the four segments
of one task back to back is exactly the atomic `fetchCurrentUser`. -/
theorem runPhased_eq_fetchCurrentUser (s : AuthState) (api1 : GetUserApi)
    (apiR : Option String) (api2 : GetUserApi) :
    runPhased s api1 apiR api2 = fetchCurrentUser s api1 apiR api2 := by
  unfold runPhased fetchCurrentUser startFetch resumeGetUser1 resumeRefresh
    resumeGetUser2 refreshAccessToken attachedToken
  cases hA : s.accessToken with
  | none => simp
  | some a =>
    by_cases ha : a = ""
    · simp [ha]
    · cases api1 with
      | ok u => simp [ha]
      | http401 =>
        cases hR : s.refreshToken with
        | none => simp [ha, hR]
        | some rt =>
          by_cases hrt : rt = ""
          · simp [ha, hR, hrt]
          · cases apiR with
            | none => simp [ha, hR, hrt]
            | some newTok => cases api2 <;> simp [ha, hR, hrt]
      | errOther => simp [ha]

/-- `getCurrentUser` handling never issues a settings read. -/
theorem fetchCurrentUser_no_settings_request (s : AuthState) (api1 : GetUserApi)
    (apiR : Option String) (api2 : GetUserApi) :
    getSettingsRequestCount (fetchCurrentUser s api1 apiR api2).2 = 0 := by
  unfold fetchCurrentUser refreshAccessToken attachedToken
  cases hA : s.accessToken with
  | none => simp [getSettingsRequestCount]
  | some a =>
    by_cases ha : a = ""
    · simp [ha, getSettingsRequestCount]
    · cases api1 with
      | ok u => simp [ha, getSettingsRequestCount]
      | http401 =>
        cases hR : s.refreshToken with
        | none => simp [ha, hR, getSettingsRequestCount]
        | some rt =>
          by_cases hrt : rt = ""
          · simp [ha, hR, hrt, getSettingsRequestCount]
          · cases apiR with
            | none => simp [ha, hR, hrt, getSettingsRequestCount]
            | some newTok =>
              cases api2 <;> simp [ha, hR, hrt, getSettingsRequestCount]
      | errOther => simp [ha, getSettingsRequestCount]

/-- Refresh-request count of a constant refresh trace. -/
theorem refreshRequestCount_replicate (n : Nat) (rt : String) :
    refreshRequestCount (List.replicate n (Ev.reqRefresh rt)) = n := by
  induction n with
  | zero => rfl
  | succ n ih =>
    simp only [List.replicate_succ, refreshRequestCount, List.countP_cons] at *
    simp [ih]

/-! ## Claim theorems -/

/-- C4: every invocation of the refresh exchange that fails (the refresh
token is held and the `authApi.refresh` call is rejected) performs the
session-clearing `set` exactly once, leaving `user`, `accessToken`,
`refreshToken`, `settings` and `effectiveConfig` absent and
`isAuthenticated` false. -/
theorem c4_refresh_failure_clears_once (s : AuthState) (rt : String)
    (h1 : s.refreshToken = some rt) (h2 : rt ≠ "") :
    (refreshAccessToken s none).1 = clearSessionFields s
    ∧ (refreshAccessToken s none).1.user = none
    ∧ (refreshAccessToken s none).1.accessToken = none
    ∧ (refreshAccessToken s none).1.refreshToken = none
    ∧ (refreshAccessToken s none).1.settings = none
    ∧ (refreshAccessToken s none).1.effectiveConfig = none
    ∧ (refreshAccessToken s none).1.isAuthenticated = false
    ∧ sessionClearCount (refreshAccessToken s none).2.2 = 1 := by
  simp [refreshAccessToken, h1, h2, clearSessionFields, sessionClearCount]

/-- Witness for C4 at a concrete authenticated state. -/
theorem c4_refresh_failure_clears_once_witness :
    (refreshAccessToken demoAuthedState none).1 = clearSessionFields demoAuthedState
    ∧ (refreshAccessToken demoAuthedState none).1.user = none
    ∧ (refreshAccessToken demoAuthedState none).1.accessToken = none
    ∧ (refreshAccessToken demoAuthedState none).1.refreshToken = none
    ∧ (refreshAccessToken demoAuthedState none).1.settings = none
    ∧ (refreshAccessToken demoAuthedState none).1.effectiveConfig = none
    ∧ (refreshAccessToken demoAuthedState none).1.isAuthenticated = false
    ∧ sessionClearCount (refreshAccessToken demoAuthedState none).2.2 = 1 :=
  c4_refresh_failure_clears_once demoAuthedState "tokR" rfl (by decide)

/-- C6 fails on `fetchSettings`: a failing settings read leaves the whole
state (including the `error` field, still `none`) exactly as before and
throws nothing, so no user-facing error message is surfaced — refuting the
claim's error-surfacing conjunct at this concrete failing invocation. -/
theorem c6_counterexample :
    (fetchSettings demoAuthedState (Except.error (some "boom"))).1.error = none
    ∧ (fetchSettings demoAuthedState (Except.error (some "boom"))).1
        = demoAuthedState
    ∧ demoAuthedState.error = none := by
  decide

/-- C6 (amended): a failing `update` or `resetField` leaves the stored
override and effective config unchanged and surfaces a user-facing message
(stored in `error` and thrown); a failing `fetch` also leaves prior state
untouched, but surfaces no message at all — the failure is only logged. -/
theorem c6_failure_frame (s : AuthState) (m : Option String)
    (data : UpdateSettingsRequest) (key : String) :
    (fetchSettings s (.error m)).1 = s
    ∧ (updateSettings s data (.error m)).2.1.settings = s.settings
    ∧ (updateSettings s data (.error m)).2.1.effectiveConfig = s.effectiveConfig
    ∧ (updateSettings s data (.error m)).2.1.error
        = some (m.getD "Failed to update settings")
    ∧ (updateSettings s data (.error m)).1
        = .error (m.getD "Failed to update settings")
    ∧ (resetSetting s key (.error m)).2.1.settings = s.settings
    ∧ (resetSetting s key (.error m)).2.1.effectiveConfig = s.effectiveConfig
    ∧ (resetSetting s key (.error m)).2.1.error
        = some (m.getD "Failed to reset setting")
    ∧ (resetSetting s key (.error m)).1
        = .error (m.getD "Failed to reset setting") := by
  simp [fetchSettings, updateSettings, resetSetting]

/-- C7: a successful refresh exchange replaces only `accessToken`
(`refreshToken`, `user`, `isAuthenticated`, `settings`, `effectiveConfig`
are unchanged), and the original call is retried exactly once, carrying the
new access token. -/
theorem c7_refresh_success_frame (s : AuthState) (a rt newTok : String)
    (api2 : GetUserApi)
    (h1 : s.accessToken = some a) (h2 : a ≠ "")
    (h3 : s.refreshToken = some rt) (h4 : rt ≠ "") :
    refreshAccessToken s (some newTok)
      = ({ s with accessToken := some newTok }, true, [Ev.reqRefresh rt])
    ∧ (refreshAccessToken s (some newTok)).1.refreshToken = s.refreshToken
    ∧ (refreshAccessToken s (some newTok)).1.user = s.user
    ∧ (refreshAccessToken s (some newTok)).1.isAuthenticated = s.isAuthenticated
    ∧ (refreshAccessToken s (some newTok)).1.settings = s.settings
    ∧ (refreshAccessToken s (some newTok)).1.effectiveConfig = s.effectiveConfig
    ∧ (fetchCurrentUser s .http401 (some newTok) api2).2
      = [Ev.reqGetUser (some a), Ev.reqRefresh rt, Ev.reqGetUser (some newTok)]
    ∧ getUserRequestCount (fetchCurrentUser s .http401 (some newTok) api2).2 = 2 := by
  unfold fetchCurrentUser refreshAccessToken attachedToken
  cases api2 <;> simp [h1, h2, h3, h4, getUserRequestCount]

/-- Witness for C7 at a concrete authenticated state. -/
theorem c7_refresh_success_frame_witness :
    refreshAccessToken demoAuthedState (some "newTok")
      = ({ demoAuthedState with accessToken := some "newTok" }, true,
         [Ev.reqRefresh "tokR"])
    ∧ (refreshAccessToken demoAuthedState (some "newTok")).1.refreshToken
        = demoAuthedState.refreshToken
    ∧ (refreshAccessToken demoAuthedState (some "newTok")).1.user
        = demoAuthedState.user
    ∧ (refreshAccessToken demoAuthedState (some "newTok")).1.isAuthenticated
        = demoAuthedState.isAuthenticated
    ∧ (refreshAccessToken demoAuthedState (some "newTok")).1.settings
        = demoAuthedState.settings
    ∧ (refreshAccessToken demoAuthedState (some "newTok")).1.effectiveConfig
        = demoAuthedState.effectiveConfig
    ∧ (fetchCurrentUser demoAuthedState .http401 (some "newTok") .http401).2
      = [Ev.reqGetUser (some "tokA"), Ev.reqRefresh "tokR",
         Ev.reqGetUser (some "newTok")]
    ∧ getUserRequestCount
        (fetchCurrentUser demoAuthedState .http401 (some "newTok") .http401).2 = 2 :=
  c7_refresh_success_frame demoAuthedState "tokA" "tokR" "newTok" .http401
    rfl (by decide) rfl (by decide)

/-- C9: `logout` clears the local session (`user`, both tokens,
`isAuthenticated`, `settings`, `effectiveConfig`) whatever the remote
logout call does; the remote failure is ignored (the result does not depend
on the outcome) and never surfaced (`error` unchanged, nothing thrown). -/
theorem c9_logout_clears_locally (s : AuthState) (remoteOk : Bool) :
    (logout s remoteOk).1 = clearSessionFields s
    ∧ (logout s remoteOk).1.user = none
    ∧ (logout s remoteOk).1.accessToken = none
    ∧ (logout s remoteOk).1.refreshToken = none
    ∧ (logout s remoteOk).1.isAuthenticated = false
    ∧ (logout s remoteOk).1.settings = none
    ∧ (logout s remoteOk).1.effectiveConfig = none
    ∧ (logout s remoteOk).1.error = s.error
    ∧ logout s true = logout s false
    ∧ (logout s remoteOk).2 = [Ev.reqLogout, Ev.sessionCleared] := by
  simp [logout, clearSessionFields]

/-- C10: with no access token stored, `fetchCurrentUser` returns before any
`set` or network call: the state (including the persisted `isAuthenticated`
flag) is untouched and no request is issued. -/
theorem c10_no_access_token_noop (s : AuthState) (api1 : GetUserApi)
    (apiR : Option String) (api2 : GetUserApi)
    (h : s.accessToken = none) :
    fetchCurrentUser s api1 apiR api2 = (s, []) := by
  simp [fetchCurrentUser, h]

/-- Witness for C10: a persisted-authenticated state without an access
token is left exactly as it is. -/
theorem c10_no_access_token_noop_witness :
    fetchCurrentUser
      { initialState with isAuthenticated := true, user := some demoUser }
      .http401 none .http401
      = ({ initialState with isAuthenticated := true, user := some demoUser }, []) :=
  c10_no_access_token_noop
    { initialState with isAuthenticated := true, user := some demoUser }
    .http401 none .http401 rfl

/-- C1 fails on the code: from an authenticated state, a 401, a successful
refresh and a second 401 on the retried call leave `isAuthenticated` true
and both tokens stored — the session is not terminated. -/
theorem c1_counterexample :
    ¬ ((fetchCurrentUser demoAuthedState .http401 (some "newTok") .http401).1.isAuthenticated
          = false
       ∧ (fetchCurrentUser demoAuthedState .http401 (some "newTok") .http401).1.accessToken
          = none
       ∧ (fetchCurrentUser demoAuthedState .http401 (some "newTok") .http401).1.refreshToken
          = none) := by
  decide

/-- C1 (amended): after a successful refresh, a second unauthorized
response on the retried call does not terminate the session: the store
keeps the new access token, the refresh token, the user and the
authenticated flag, only `isLoading` is reset, and the session-clearing
`set` never runs. -/
theorem c1_second_unauthorized_keeps_session (s : AuthState) (a rt newTok : String)
    (h1 : s.accessToken = some a) (h2 : a ≠ "")
    (h3 : s.refreshToken = some rt) (h4 : rt ≠ "") :
    (fetchCurrentUser s .http401 (some newTok) .http401).1
      = { s with accessToken := some newTok, isLoading := false }
    ∧ (fetchCurrentUser s .http401 (some newTok) .http401).1.isAuthenticated
        = s.isAuthenticated
    ∧ (fetchCurrentUser s .http401 (some newTok) .http401).1.refreshToken
        = s.refreshToken
    ∧ (fetchCurrentUser s .http401 (some newTok) .http401).1.user = s.user
    ∧ sessionClearCount (fetchCurrentUser s .http401 (some newTok) .http401).2 = 0 := by
  unfold fetchCurrentUser refreshAccessToken attachedToken
  simp [h1, h2, h3, h4, sessionClearCount]

/-- Witness for the amended C1 at a concrete authenticated state. -/
theorem c1_second_unauthorized_keeps_session_witness :
    (fetchCurrentUser demoAuthedState .http401 (some "newTok") .http401).1
      = { demoAuthedState with accessToken := some "newTok", isLoading := false }
    ∧ (fetchCurrentUser demoAuthedState .http401 (some "newTok") .http401).1.isAuthenticated
        = demoAuthedState.isAuthenticated
    ∧ (fetchCurrentUser demoAuthedState .http401 (some "newTok") .http401).1.refreshToken
        = demoAuthedState.refreshToken
    ∧ (fetchCurrentUser demoAuthedState .http401 (some "newTok") .http401).1.user
        = demoAuthedState.user
    ∧ sessionClearCount
        (fetchCurrentUser demoAuthedState .http401 (some "newTok") .http401).2 = 0 :=
  c1_second_unauthorized_keeps_session demoAuthedState "tokA" "tokR" "newTok"
    rfl (by decide) rfl (by decide)

/-- C2 fails on the code: an unauthorized response with no refresh token
held leaves the user, the access token, the authenticated flag and the
cached configuration all in place — `clearSession()` is not triggered. -/
theorem c2_counterexample :
    ¬ ((fetchCurrentUser noRefreshState .http401 none .http401).1.isAuthenticated = false
       ∧ (fetchCurrentUser noRefreshState .http401 none .http401).1.user = none
       ∧ (fetchCurrentUser noRefreshState .http401 none .http401).1.accessToken = none
       ∧ (fetchCurrentUser noRefreshState .http401 none .http401).1.settings = none) := by
  decide

/-- C2 (amended): when an authenticated call receives an unauthorized
response and no refresh token is held, `refreshAccessToken` returns `false`
without touching any state and without issuing a request, and
`fetchCurrentUser` swallows the failure, resetting only `isLoading`; no
field is cleared and nothing is propagated to the caller. -/
theorem c2_no_refresh_token_swallows (s : AuthState) (a : String)
    (apiR : Option String) (api2 : GetUserApi)
    (h1 : s.accessToken = some a) (h2 : a ≠ "") (h3 : s.refreshToken = none) :
    fetchCurrentUser s .http401 apiR api2
      = ({ s with isLoading := false }, [Ev.reqGetUser (some a)])
    ∧ refreshAccessToken s apiR = (s, false, [])
    ∧ (fetchCurrentUser s .http401 apiR api2).1.isAuthenticated = s.isAuthenticated
    ∧ (fetchCurrentUser s .http401 apiR api2).1.user = s.user
    ∧ (fetchCurrentUser s .http401 apiR api2).1.accessToken = s.accessToken
    ∧ (fetchCurrentUser s .http401 apiR api2).1.settings = s.settings
    ∧ (fetchCurrentUser s .http401 apiR api2).1.effectiveConfig = s.effectiveConfig
    ∧ sessionClearCount (fetchCurrentUser s .http401 apiR api2).2 = 0 := by
  unfold fetchCurrentUser refreshAccessToken attachedToken
  simp [h1, h2, h3, sessionClearCount]

/-- Witness for the amended C2 at a concrete token-but-no-refresh state. -/
theorem c2_no_refresh_token_swallows_witness :
    fetchCurrentUser noRefreshState .http401 none .http401
      = ({ noRefreshState with isLoading := false }, [Ev.reqGetUser (some "tokA")])
    ∧ refreshAccessToken noRefreshState none = (noRefreshState, false, [])
    ∧ (fetchCurrentUser noRefreshState .http401 none .http401).1.isAuthenticated
        = noRefreshState.isAuthenticated
    ∧ (fetchCurrentUser noRefreshState .http401 none .http401).1.user
        = noRefreshState.user
    ∧ (fetchCurrentUser noRefreshState .http401 none .http401).1.accessToken
        = noRefreshState.accessToken
    ∧ (fetchCurrentUser noRefreshState .http401 none .http401).1.settings
        = noRefreshState.settings
    ∧ (fetchCurrentUser noRefreshState .http401 none .http401).1.effectiveConfig
        = noRefreshState.effectiveConfig
    ∧ sessionClearCount (fetchCurrentUser noRefreshState .http401 none .http401).2 = 0 :=
  c2_no_refresh_token_swallows noRefreshState "tokA" none .http401
    rfl (by decide) rfl

/-- C3 fails on the code: two concurrent authenticated calls that each
receive a 401 while the first refresh is still pending issue two refresh
requests, not one — there is no shared in-flight refresh. -/
theorem c3_counterexample :
    refreshRequestCount concurrentScenario.2 = 2
    ∧ refreshRequestCount concurrentScenario.2 ≠ 1 := by
  decide

/-- C3 (amended): the store shares no pending refresh: every caller that
receives a 401 while the refresh token is held starts its own refresh
exchange, so `n` concurrent callers issue `n` refresh requests (and the
401-handling segment writes no state before its refresh await). -/
theorem c3_each_caller_issues_refresh (n : Nat) (s : AuthState) (rt : String)
    (h1 : s.refreshToken = some rt) (h2 : rt ≠ "") :
    deliver401N n s = (s, List.replicate n (Ev.reqRefresh rt))
    ∧ refreshRequestCount (deliver401N n s).2 = n := by
  have key : deliver401N n s = (s, List.replicate n (Ev.reqRefresh rt)) := by
    induction n with
    | zero => rfl
    | succ n ih =>
      unfold deliver401N resumeGetUser1
      simp [h1, h2, ih, List.replicate_succ]
  refine ⟨key, ?_⟩
  rw [key]
  exact refreshRequestCount_replicate n rt

/-- Witness for the amended C3: two callers, two refresh requests. -/
theorem c3_each_caller_issues_refresh_witness :
    deliver401N 2 demoAuthedState
      = (demoAuthedState, List.replicate 2 (Ev.reqRefresh "tokR"))
    ∧ refreshRequestCount (deliver401N 2 demoAuthedState).2 = 2 :=
  c3_each_caller_issues_refresh 2 demoAuthedState "tokR" rfl (by decide)

/-- C8 fails on the code: bootstrap from a persisted authenticated state
whose `fetchCurrentUser` succeeds (authentication confirmed, user stored)
issues no configuration fetch at all. -/
theorem c8_counterexample :
    (appBootstrap demoAuthedState (.ok demoUser) none .errOther).1.isAuthenticated = true
    ∧ (appBootstrap demoAuthedState (.ok demoUser) none .errOther).1.user = some demoUser
    ∧ getSettingsRequestCount
        (appBootstrap demoAuthedState (.ok demoUser) none .errOther).2 = 0 := by
  decide

/-- C8 (amended): bootstrap only validates the user and never issues a
configuration fetch; the settings read is instead issued by the Settings
page on mount, exactly when the session is authenticated — so a settings
fetch is still never issued for an unauthenticated session. -/
theorem c8_bootstrap_never_fetches_settings (s : AuthState) (api1 : GetUserApi)
    (apiR : Option String) (api2 : GetUserApi)
    (apiS : Except (Option String) SettingsResponse) :
    getSettingsRequestCount (appBootstrap s api1 apiR api2).2 = 0
    ∧ (s.isAuthenticated = false → settingsPageLoad s apiS = (s, []))
    ∧ (s.isAuthenticated = true →
        (settingsPageLoad s apiS).2 = [Ev.reqGetSettings]) := by
  refine ⟨?_, ?_, ?_⟩
  · unfold appBootstrap
    split
    · exact fetchCurrentUser_no_settings_request s api1 apiR api2
    · simp [getSettingsRequestCount]
  · intro h
    simp [settingsPageLoad, h]
  · intro h
    cases apiS <;> simp [settingsPageLoad, h, fetchSettings]

/-- Witness for the amended C8 at a concrete authenticated state. -/
theorem c8_bootstrap_never_fetches_settings_witness :
    getSettingsRequestCount
      (appBootstrap demoAuthedState (.ok demoUser) none .errOther).2 = 0
    ∧ (settingsPageLoad demoAuthedState (Except.error none)).2
        = [Ev.reqGetSettings] := by
  obtain ⟨h1, _, h3⟩ :=
    c8_bootstrap_never_fetches_settings demoAuthedState (.ok demoUser) none
      .errOther (Except.error none)
  exact ⟨h1, h3 rfl⟩

/-- `fetchSettings` never touches the session fields, so it preserves the
session invariant. -/
theorem fetchSettings_inv (s : AuthState)
    (api : Except (Option String) SettingsResponse)
    (h : sessionInvariant s) : sessionInvariant (fetchSettings s api).1 := by
  cases api <;> simpa [fetchSettings, sessionInvariant] using h

/-- From a state holding both tokens with `isAuthenticated = true`, every
branch of `fetchCurrentUser` re-establishes the session invariant: it
either keeps both tokens and the flag, or clears both tokens together with
the flag. -/
theorem fetchCurrentUser_inv (s : AuthState) (api1 : GetUserApi)
    (apiR : Option String) (api2 : GetUserApi) (a rt : String)
    (hA : s.accessToken = some a) (hR : s.refreshToken = some rt)
    (hAuth : s.isAuthenticated = true) :
    sessionInvariant (fetchCurrentUser s api1 apiR api2).1 := by
  unfold fetchCurrentUser refreshAccessToken attachedToken
  by_cases ha : a = ""
  · simp [hA, ha, sessionInvariant, hAuth, hR]
  · cases api1 with
    | ok u => simp [hA, ha, sessionInvariant, hR]
    | http401 =>
      by_cases hrt : rt = ""
      · simp [hA, ha, hR, hrt, sessionInvariant, hAuth]
      · cases apiR with
        | none =>
          simp [hA, ha, hR, hrt, sessionInvariant, clearSessionFields]
        | some newTok =>
          cases api2 <;> simp [hA, ha, hR, hrt, sessionInvariant, hAuth]
    | errOther => simp [hA, ha, sessionInvariant, hAuth, hR]

/-- Each session operation preserves the session invariant. -/
theorem applySessionOp_preserves (s : AuthState) (op : SessionOp)
    (h : sessionInvariant s) : sessionInvariant (applySessionOp s op) := by
  cases op with
  | loginOk e r apiS =>
    cases apiS <;> simp [applySessionOp, login, fetchSettings, sessionInvariant]
  | registerOk u e r apiS =>
    cases apiS <;> simp [applySessionOp, register, fetchSettings, sessionInvariant]
  | oauthCallback a rt api1 apiR api2 apiS =>
    show sessionInvariant (setTokensFromOAuth s a rt api1 apiR api2 apiS).1
    unfold setTokensFromOAuth
    rcases hE : fetchCurrentUser
        { s with accessToken := some a, refreshToken := some rt,
                 isAuthenticated := true } api1 apiR api2 with ⟨s2, tr1⟩
    rcases hF : fetchSettings s2 apiS with ⟨s3, tr2⟩
    have h2 : sessionInvariant s2 := by
      have hi := fetchCurrentUser_inv
        { s with accessToken := some a, refreshToken := some rt,
                 isAuthenticated := true } api1 apiR api2 a rt rfl rfl rfl
      rwa [hE] at hi
    have h3 : sessionInvariant s3 := by
      have hi := fetchSettings_inv s2 apiS h2
      rwa [hF] at hi
    simp only [hE, hF]
    exact h3
  | logoutOp ok =>
    simp [applySessionOp, logout, clearSessionFields, sessionInvariant]
  | refreshFailure =>
    show sessionInvariant (refreshAccessToken s none).1
    unfold refreshAccessToken
    cases hR : s.refreshToken with
    | none => simpa using h
    | some rt =>
      by_cases hrt : rt = ""
      · simpa [hrt] using h
      · simp [hrt, clearSessionFields, sessionInvariant]

/-- C5: over every sequence of setSession-like (successful login, register,
OAuth callback) and clearSession-like (logout, refresh failure) operations
from the initial state, `isAuthenticated` equals "both tokens present" at
every observation point (every prefix of the sequence ends in a state of
this form). -/
theorem c5_authenticated_iff_both_tokens (ops : List SessionOp) :
    sessionInvariant (ops.foldl applySessionOp initialState) := by
  have gen : ∀ (l : List SessionOp) (s : AuthState), sessionInvariant s →
      sessionInvariant (l.foldl applySessionOp s) := by
    intro l
    induction l with
    | nil => intro s h; exact h
    | cons op rest ih =>
      intro s h
      exact ih (applySessionOp s op) (applySessionOp_preserves s op h)
  exact gen ops initialState rfl

end BananaSlides
